import Mathlib

/-
Shallow embedding of the HC-SR04 ultrasonic sensor Node-RED node.

Sources embedded:
  - src/hcsr04.js (rpi-gpio event-driven variant; the primary model), and
  - src/unnamed/part_000 (sysfs polling variant) where its behaviour
    differs in a way a claim depends on (the close handler).

Modelling conventions:
  - JS numbers used for time and distance arithmetic are modelled as
    rationals; process.hrtime.bigint() timestamps are rationals in
    nanoseconds, Date.now() timestamps are integers in milliseconds.
  - Every observable action of the node (node.send, node.status,
    node.error, gpio.write attempts) is an element of the Output list a
    handler returns, in program order.
  - The asynchronous callback structure of a single handler is flattened
    into one function; the success of each gpio.write is a Boolean
    parameter (true: the callback receives no error).
  - setInterval / clearInterval are modelled by a count of running
    interval timers plus a flag for whether the measurementTimer variable
    currently holds a handle; the one-shot 100 ms safety setTimeout is a
    pending-flag consumed by safetyFire.
-/

namespace HCSR04

/-- Status text values the node passes to node.status; the valueCm case
carries the rounded distance shown as a number of centimeters. -/
inductive StatusText where
  | ready
  | valueCm (v : ℚ)
  | outOfRange
  | timedOut
  | stopped
  | disconnected
  deriving DecidableEq

/-- Observable outputs of the node, in program order: node.send messages,
node.status updates, node.error reports, and gpio.write attempts. -/
inductive Output where
  | reading (payload : ℚ) (topic : String) (unit : String) (timestamp : ℤ)
  | statusOut (fill : String) (shape : String) (text : StatusText)
  | errorOut (msg : String)
  | writeAttempt (pin : ℤ) (level : Bool)
  deriving DecidableEq

/-- Mutable state of one HCSR04Node instance: the isReading flag, the
startTime recorded at a rising edge (none models null), the number of
running interval timers together with whether the measurementTimer
variable holds a handle, whether a 100 ms safety timeout is pending,
the physical trigger line level, and whether the node was closed. -/
structure SensorState where
  isReading : Bool
  startTime : Option ℚ
  runningTimers : Nat
  timerRef : Bool
  safetyPending : Bool
  triggerLevel : Bool
  closed : Bool
  deriving DecidableEq

/-- Rounding to two decimal places, as distance.toFixed(2) followed by
parseFloat does for the positive distances involved. -/
def round2 (q : ℚ) : ℚ := ((round (q * 100) : ℤ) : ℚ) / 100

/-- Distance computation from src/hcsr04.js line 62: duration / 2 / 29.1,
with the duration in microseconds. -/
def distanceCm (durationUs : ℚ) : ℚ := durationUs / 2 / (291 / 10)

/-- Predicate selecting node.send reading outputs. -/
def isReadingOut : Output → Bool
  | Output.reading _ _ _ _ => true
  | _ => false

/-- Predicate selecting node.status outputs. -/
def isStatusOut : Output → Bool
  | Output.statusOut _ _ _ => true
  | _ => false

/-- Predicate selecting node.error outputs. -/
def isErrorOut : Output → Bool
  | Output.errorOut _ => true
  | _ => false

/-- Predicate selecting the timeout status output. -/
def isTimeoutStatus : Output → Bool
  | Output.statusOut _ _ StatusText.timedOut => true
  | _ => false

/-- The gpio change handler of src/hcsr04.js lines 48 to 91. A rising
edge (value true) while isReading records startTime unconditionally; a
falling edge with a truthy startTime (non-null and nonzero, after the JS
truthiness of a BigInt) computes the duration in microseconds from the
nanosecond timestamps, clears isReading, and either sends one reading
with a green status or signals an out of range status. -/
def onChange (echoPin : ℤ) (st : SensorState) (channel : ℤ) (value : Bool)
    (nowNs : ℚ) (nowMs : ℤ) : SensorState × List Output :=
  if channel = echoPin ∧ st.isReading = true then
    if value then
      ({ st with startTime := some nowNs }, [])
    else
      match st.startTime with
      | some s =>
        if s = 0 then (st, [])
        else
          let duration := (nowNs - s) / 1000
          let distance := distanceCm duration
          let st1 := { st with isReading := false }
          if 2 ≤ distance ∧ distance ≤ 400 then
            (st1, [Output.reading (round2 distance) "distance" "cm" nowMs,
                   Output.statusOut "green" "dot"
                     (StatusText.valueCm (round2 distance))])
          else
            (st1, [Output.statusOut "yellow" "ring" StatusText.outOfRange])
      | none => (st, [])
  else (st, [])

/-- The state mutation triggerMeasurement performs before any gpio.write:
isReading set to true and startTime cleared to null (lines 102 to 103 of
src/hcsr04.js). -/
def armCycle (st : SensorState) : SensorState :=
  { st with isReading := true, startTime := none }

/-- The trigger pulse phase of triggerMeasurement (src/hcsr04.js lines
106 to 129): write HIGH, on success write LOW 10 microseconds later; a
failed write reports through node.error and clears isReading; the 100 ms
safety timeout is armed in every branch because setTimeout runs
synchronously after gpio.write is initiated. -/
def pulsePhase (trigPin : ℤ) (st : SensorState)
    (writeHighOk writeLowOk : Bool) : SensorState × List Output :=
  if writeHighOk then
    let st1 := { st with triggerLevel := true }
    if writeLowOk then
      ({ st1 with triggerLevel := false, safetyPending := true },
       [Output.writeAttempt trigPin true, Output.writeAttempt trigPin false])
    else
      ({ st1 with isReading := false, safetyPending := true },
       [Output.writeAttempt trigPin true, Output.writeAttempt trigPin false,
        Output.errorOut "Failed to write LOW to trigger"])
  else
    ({ st with isReading := false, safetyPending := true },
     [Output.writeAttempt trigPin true,
      Output.errorOut "Failed to write HIGH to trigger"])

/-- triggerMeasurement from src/hcsr04.js lines 98 to 136: a no-op while
isReading, otherwise arm the cycle and run the pulse phase. -/
def triggerMeasurement (trigPin : ℤ) (st : SensorState)
    (writeHighOk writeLowOk : Bool) : SensorState × List Output :=
  if st.isReading = true then (st, [])
  else pulsePhase trigPin (armCycle st) writeHighOk writeLowOk

/-- The 100 ms safety timeout callback of src/hcsr04.js lines 124 to 129:
when it fires with isReading still true it clears isReading and signals a
timeout status; either way the one-shot timer is consumed. -/
def safetyFire (st : SensorState) : SensorState × List Output :=
  if st.isReading = true then
    ({ st with isReading := false, safetyPending := false },
     [Output.statusOut "yellow" "ring" StatusText.timedOut])
  else
    ({ st with safetyPending := false }, [])

/-- Message payloads the input handler distinguishes: the string trigger,
the boolean true, start, stop, and anything else (ignored). -/
inductive Payload where
  | triggerCmd
  | boolTrue
  | startCmd
  | stopCmd
  | other
  deriving DecidableEq

/-- The clearInterval(measurementTimer) / measurementTimer = null step
guarded by if (measurementTimer). -/
def clearTimer (st : SensorState) : SensorState :=
  if st.timerRef = true then
    { st with runningTimers := st.runningTimers - 1, timerRef := false }
  else st

/-- startMeasurements from src/hcsr04.js lines 139 to 147: take an
initial measurement, then install a new interval timer. -/
def startMeasurements (trigPin : ℤ) (st : SensorState)
    (writeHighOk writeLowOk : Bool) : SensorState × List Output :=
  let p := triggerMeasurement trigPin st writeHighOk writeLowOk
  ({ p.1 with runningTimers := p.1.runningTimers + 1, timerRef := true }, p.2)

/-- The input message handler of src/hcsr04.js lines 150 to 165: trigger
or true causes one measurement, start clears any existing interval timer
and calls startMeasurements, stop clears the timer and shows a stopped
status, anything else is ignored. -/
def handleInput (trigPin : ℤ) (st : SensorState) (p : Payload)
    (writeHighOk writeLowOk : Bool) : SensorState × List Output :=
  match p with
  | Payload.triggerCmd => triggerMeasurement trigPin st writeHighOk writeLowOk
  | Payload.boolTrue => triggerMeasurement trigPin st writeHighOk writeLowOk
  | Payload.startCmd =>
      startMeasurements trigPin (clearTimer st) writeHighOk writeLowOk
  | Payload.stopCmd =>
      (clearTimer st, [Output.statusOut "grey" "ring" StatusText.stopped])
  | Payload.other => (st, [])

/-- The close handler of src/hcsr04.js lines 171 to 187: clear the
interval timer, attempt to write the trigger line low, destroy the gpio
resources, show a disconnected status. It does not clear isReading and
cannot cancel the pending one-shot safety setTimeout. -/
def closeHandler (trigPin : ℤ) (st : SensorState) (writeOk : Bool) :
    SensorState × List Output :=
  let st1 := clearTimer st
  let st2 := if writeOk then { st1 with triggerLevel := false } else st1
  ({ st2 with closed := true },
   [Output.writeAttempt trigPin false,
    Output.statusOut "red" "ring" StatusText.disconnected])

/-- The close handler of src/unnamed/part_000 lines 244 to 277: it first
sets isReading to false (and isInitialized to false), clears both the
interval timer and the echo watcher, writes the trigger line low and
unexports the pins, then shows a disconnected status. -/
def closeHandlerFs (trigPin : ℤ) (st : SensorState) (writeOk : Bool) :
    SensorState × List Output :=
  let st0 := { st with isReading := false }
  let st1 := clearTimer st0
  let st2 := if writeOk then { st1 with triggerLevel := false } else st1
  ({ st2 with closed := true },
   [Output.writeAttempt trigPin false,
    Output.statusOut "red" "ring" StatusText.disconnected])

/-- Raw configuration as received from the editor: each field is the
result of parseInt on the supplied string, with none standing for NaN
(a missing field or one that does not parse to a number). -/
structure RawConfig where
  trigger : Option ℤ
  echo : Option ℤ
  interval : Option ℤ
  deriving DecidableEq

/-- The JS expression parseInt(x) || d: NaN and 0 are falsy, so both are
replaced by the default. -/
def parseIntOr (v : Option ℤ) (d : ℤ) : ℤ :=
  match v with
  | none => d
  | some n => if n = 0 then d else n

/-- The resolved pin configuration. -/
structure PinConfig where
  triggerPin : ℤ
  echoPin : ℤ
  intervalMs : ℤ
  deriving DecidableEq

/-- Configuration parsing from src/hcsr04.js lines 9 to 11. -/
def parseConfig (c : RawConfig) : PinConfig :=
  ⟨parseIntOr c.trigger 18, parseIntOr c.echo 24, parseIntOr c.interval 1000⟩

/-- One interval timer firing: it invokes triggerMeasurement with both
writes succeeding. -/
def tickOnce (trigPin : ℤ) (st : SensorState) : SensorState :=
  (triggerMeasurement trigPin st true true).1

/-- All k running interval timers fire once each; the second component
counts the triggerMeasurement invocations. -/
def tickTimers (trigPin : ℤ) : Nat → SensorState → SensorState × Nat
  | 0, st => (st, 0)
  | Nat.succ k, st =>
      let p := tickTimers trigPin k (tickOnce trigPin st)
      (p.1, p.2 + 1)

/-- Simulation of n scheduling periods: in each period every running
interval timer invokes triggerMeasurement once; the second component is
the total number of trigger attempts. -/
def simPeriods (trigPin : ℤ) : Nat → SensorState → SensorState × Nat
  | 0, st => (st, 0)
  | Nat.succ n, st =>
      let p := tickTimers trigPin st.runningTimers st
      let q := simPeriods trigPin n p.1
      (q.1, p.2 + q.2)

/-- triggerMeasurement never changes the interval timer bookkeeping. -/
theorem triggerMeasurement_timers (trigPin : ℤ) (st : SensorState)
    (h1 l1 : Bool) :
    (triggerMeasurement trigPin st h1 l1).1.runningTimers =
      st.runningTimers ∧
    (triggerMeasurement trigPin st h1 l1).1.timerRef = st.timerRef := by
  cases hb : st.isReading <;> cases h1 <;> cases l1 <;>
    simp [triggerMeasurement, pulsePhase, armCycle, hb]

/-- One timer tick preserves the number of running timers. -/
theorem tickOnce_timers (trigPin : ℤ) (st : SensorState) :
    (tickOnce trigPin st).runningTimers = st.runningTimers :=
  (triggerMeasurement_timers trigPin st true true).1

/-- Firing k timers produces exactly k trigger attempts and preserves the
number of running timers. -/
theorem tickTimers_spec (trigPin : ℤ) :
    ∀ (k : Nat) (st : SensorState),
      (tickTimers trigPin k st).2 = k ∧
      (tickTimers trigPin k st).1.runningTimers = st.runningTimers
  | 0, _ => ⟨rfl, rfl⟩
  | Nat.succ k, st => by
      have ih := tickTimers_spec trigPin k (tickOnce trigPin st)
      simp [tickTimers, ih.1, ih.2, tickOnce_timers]

/-- Over n periods the number of trigger attempts is n times the number
of running timers, which stays constant. -/
theorem simPeriods_count (trigPin : ℤ) :
    ∀ (n : Nat) (st : SensorState),
      (simPeriods trigPin n st).2 = n * st.runningTimers ∧
      (simPeriods trigPin n st).1.runningTimers = st.runningTimers
  | 0, _ => by simp [simPeriods]
  | Nat.succ n, st => by
      have hk := tickTimers_spec trigPin st.runningTimers st
      have ih :=
        simPeriods_count trigPin n (tickTimers trigPin st.runningTimers st).1
      constructor
      · simp only [simPeriods, hk.1, ih.1, hk.2, Nat.succ_mul]
        omega
      · simp only [simPeriods, ih.2, hk.2]

/-- With a well formed timer state, clearing the timer leaves zero
running timers and no held handle. -/
theorem clearTimer_wf (st : SensorState)
    (hwf : st.runningTimers = if st.timerRef = true then 1 else 0) :
    (clearTimer st).runningTimers = 0 ∧ (clearTimer st).timerRef = false := by
  cases hb : st.timerRef <;> simp [clearTimer, hb] <;> simp [hb] at hwf <;>
    simp [hwf]

/-- C1: a falling edge closing a cycle whose recorded start was s and
whose pulse duration (nowNs - s) / 1000 microseconds gives a distance
between 2 and 400 cm produces exactly one Reading, whose payload is the
distance rounded to two decimal places, with topic distance and unit cm,
together with a green status, and ends the cycle. -/
theorem claim_C1_valid_reading (echoPin : ℤ) (st : SensorState)
    (s nowNs : ℚ) (nowMs : ℤ) (hr : st.isReading = true)
    (hs : st.startTime = some s) (hnz : s ≠ 0)
    (hlo : 2 ≤ distanceCm ((nowNs - s) / 1000))
    (hhi : distanceCm ((nowNs - s) / 1000) ≤ 400) :
    onChange echoPin st echoPin false nowNs nowMs =
      ({ st with isReading := false },
       [Output.reading (round2 (distanceCm ((nowNs - s) / 1000)))
          "distance" "cm" nowMs,
        Output.statusOut "green" "dot"
          (StatusText.valueCm (round2 (distanceCm ((nowNs - s) / 1000))))]) ∧
    (onChange echoPin st echoPin false nowNs nowMs).2.countP isReadingOut
      = 1 := by
  have key : onChange echoPin st echoPin false nowNs nowMs =
      ({ st with isReading := false },
       [Output.reading (round2 (distanceCm ((nowNs - s) / 1000)))
          "distance" "cm" nowMs,
        Output.statusOut "green" "dot"
          (StatusText.valueCm (round2 (distanceCm ((nowNs - s) / 1000))))]) := by
    simp [onChange, hr, hs, hnz, hlo, hhi]
  refine ⟨key, ?_⟩
  rw [key]
  rfl

/-- Concrete state for the C1 scenario: mid cycle, start recorded at
1000 ns. -/
def stC1 : SensorState :=
  { isReading := true, startTime := some 1000, runningTimers := 0,
    timerRef := false, safetyPending := true, triggerLevel := false,
    closed := false }

/-- Witness for C1: a 1160 microsecond pulse (falling edge at 1161000 ns
after a rising edge at 1000 ns) yields one Reading of 19.93 cm. -/
theorem claim_C1_witness :
    (onChange 24 stC1 24 false 1161000 42 =
      ({ stC1 with isReading := false },
       [Output.reading (round2 (distanceCm ((1161000 - 1000) / 1000)))
          "distance" "cm" 42,
        Output.statusOut "green" "dot"
          (StatusText.valueCm
            (round2 (distanceCm ((1161000 - 1000) / 1000))))]) ∧
     (onChange 24 stC1 24 false 1161000 42).2.countP isReadingOut = 1) ∧
    round2 (distanceCm ((1161000 - 1000) / 1000)) = 1993 / 100 := by
  refine ⟨claim_C1_valid_reading 24 stC1 1000 1161000 42 rfl rfl
    (by norm_num) (by norm_num [distanceCm]) (by norm_num [distanceCm]), ?_⟩
  norm_num [round2, distanceCm, round_eq]

/-- Concrete state for the C2 counterexample: mid cycle with startTime
5000 ns recorded by a first rising edge. -/
def stC2 : SensorState :=
  { isReading := true, startTime := some 5000, runningTimers := 0,
    timerRef := false, safetyPending := true, triggerLevel := false,
    closed := false }

/-- C2 counterexample: the claim that an additional rising edge before
the closing falling edge is ignored and does not change the recorded
startTime is false: a second rising edge at 9000 ns overwrites the
recorded 5000 ns. -/
theorem claim_C2_cex :
    (onChange 24 stC2 24 true 9000 0).1.startTime ≠ stC2.startTime ∧
    (onChange 24 stC2 24 true 9000 0).1.startTime = some 9000 := by
  constructor
  · norm_num [onChange, stC2]
  · norm_num [onChange, stC2]

/-- C2 amended: every rising edge observed while a cycle is in flight
overwrites startTime with the current timestamp, so the last rising edge
before the closing falling edge is the authoritative one. -/
theorem claim_C2_last_edge_wins (echoPin : ℤ) (st : SensorState)
    (nowNs : ℚ) (nowMs : ℤ) (hr : st.isReading = true) :
    onChange echoPin st echoPin true nowNs nowMs =
      ({ st with startTime := some nowNs }, []) := by
  simp [onChange, hr]

/-- Witness for the amended C2 at the counterexample state. -/
theorem claim_C2_witness :
    onChange 24 stC2 24 true 9000 0 =
      ({ stC2 with startTime := some 9000 }, []) :=
  claim_C2_last_edge_wins 24 stC2 9000 0 rfl

/-- C3: triggerMeasurement called while a measurement is in flight is a
no-op: the state is returned unchanged and no output, in particular no
gpio write, is produced. -/
theorem claim_C3_inflight_noop (trigPin : ℤ) (st : SensorState)
    (writeHighOk writeLowOk : Bool) (hr : st.isReading = true) :
    triggerMeasurement trigPin st writeHighOk writeLowOk = (st, []) := by
  simp [triggerMeasurement, hr]

/-- Witness for C3 at a concrete in flight state. -/
theorem claim_C3_witness :
    triggerMeasurement 18
      ({ isReading := true, startTime := none, runningTimers := 1,
         timerRef := true, safetyPending := true, triggerLevel := false,
         closed := false } : SensorState) true true =
      (({ isReading := true, startTime := none, runningTimers := 1,
          timerRef := true, safetyPending := true, triggerLevel := false,
          closed := false } : SensorState), []) :=
  claim_C3_inflight_noop 18 _ true true rfl

/-- C4: a full cycle in which the trigger pulse succeeds, a rising edge
is observed, and no falling edge arrives before the 100 ms safety
timeout fires, produces zero Readings and exactly one timeout status
across all its outputs, and ends with isReading false. -/
theorem claim_C4_timeout_cycle (trigPin echoPin : ℤ) (st : SensorState)
    (t1 : ℚ) (ms : ℤ) (hr : st.isReading = false) :
    (((triggerMeasurement trigPin st true true).2 ++
      (onChange echoPin (triggerMeasurement trigPin st true true).1 echoPin
        true t1 ms).2 ++
      (safetyFire (onChange echoPin
        (triggerMeasurement trigPin st true true).1 echoPin true t1
        ms).1).2).countP isReadingOut = 0) ∧
    (((triggerMeasurement trigPin st true true).2 ++
      (onChange echoPin (triggerMeasurement trigPin st true true).1 echoPin
        true t1 ms).2 ++
      (safetyFire (onChange echoPin
        (triggerMeasurement trigPin st true true).1 echoPin true t1
        ms).1).2).countP isTimeoutStatus = 1) ∧
    (safetyFire (onChange echoPin
      (triggerMeasurement trigPin st true true).1 echoPin true t1
      ms).1).1.isReading = false := by
  refine ⟨?_, ?_, ?_⟩ <;>
    simp [triggerMeasurement, pulsePhase, armCycle, onChange, safetyFire,
      hr, isReadingOut, isTimeoutStatus, List.countP_cons, List.countP_nil]

/-- Concrete idle state for the C4 and C6 style witnesses. -/
def stIdle : SensorState :=
  { isReading := false, startTime := none, runningTimers := 0,
    timerRef := false, safetyPending := false, triggerLevel := false,
    closed := false }

/-- Witness for C4 at a concrete idle start state with a rising edge at
5000 ns and no falling edge. -/
theorem claim_C4_witness :
    (((triggerMeasurement 18 stIdle true true).2 ++
      (onChange 24 (triggerMeasurement 18 stIdle true true).1 24
        true 5000 0).2 ++
      (safetyFire (onChange 24
        (triggerMeasurement 18 stIdle true true).1 24 true 5000
        0).1).2).countP isReadingOut = 0) ∧
    (((triggerMeasurement 18 stIdle true true).2 ++
      (onChange 24 (triggerMeasurement 18 stIdle true true).1 24
        true 5000 0).2 ++
      (safetyFire (onChange 24
        (triggerMeasurement 18 stIdle true true).1 24 true 5000
        0).1).2).countP isTimeoutStatus = 1) ∧
    (safetyFire (onChange 24
      (triggerMeasurement 18 stIdle true true).1 24 true 5000
      0).1).1.isReading = false :=
  claim_C4_timeout_cycle 18 24 stIdle 5000 0 rfl

/-- C5: a falling edge closing a cycle whose computed distance is
strictly below 2 cm or strictly above 400 cm emits no Reading, signals
an out of range status, and still ends the cycle (isReading false). -/
theorem claim_C5_out_of_range (echoPin : ℤ) (st : SensorState)
    (s nowNs : ℚ) (nowMs : ℤ) (hr : st.isReading = true)
    (hs : st.startTime = some s) (hnz : s ≠ 0)
    (hout : distanceCm ((nowNs - s) / 1000) < 2 ∨
            400 < distanceCm ((nowNs - s) / 1000)) :
    onChange echoPin st echoPin false nowNs nowMs =
      ({ st with isReading := false },
       [Output.statusOut "yellow" "ring" StatusText.outOfRange]) := by
  have hneg : ¬ (2 ≤ distanceCm ((nowNs - s) / 1000) ∧
      distanceCm ((nowNs - s) / 1000) ≤ 400) := by
    rcases hout with h | h
    · exact fun hc => absurd hc.1 (not_le.mpr h)
    · exact fun hc => absurd hc.2 (not_le.mpr h)
  simp [onChange, hr, hs, hnz, hneg]

/-- Concrete state for the C5 scenario: mid cycle, start recorded at
1000 ns. -/
def stC5 : SensorState :=
  { isReading := true, startTime := some 1000, runningTimers := 0,
    timerRef := false, safetyPending := true, triggerLevel := false,
    closed := false }

/-- Witness for C5: a 30 microsecond pulse gives a distance of about
0.52 cm, below the 2 cm floor, so only an out of range status is
emitted. -/
theorem claim_C5_witness :
    onChange 24 stC5 24 false 31000 0 =
      ({ stC5 with isReading := false },
       [Output.statusOut "yellow" "ring" StatusText.outOfRange]) :=
  claim_C5_out_of_range 24 stC5 1000 31000 0 rfl rfl (by norm_num)
    (Or.inl (by norm_num [distanceCm]))

/-- C6: a triggerMeasurement call made when no cycle is in flight first
arms the cycle, setting isReading true and clearing startTime to null,
and only then runs the trigger pulse phase, so no startTime from a
previous cycle survives into the new one. -/
theorem claim_C6_fresh_cycle (trigPin : ℤ) (st : SensorState)
    (writeHighOk writeLowOk : Bool) (hr : st.isReading = false) :
    triggerMeasurement trigPin st writeHighOk writeLowOk =
      pulsePhase trigPin (armCycle st) writeHighOk writeLowOk ∧
    (armCycle st).isReading = true ∧ (armCycle st).startTime = none := by
  refine ⟨?_, rfl, rfl⟩
  simp [triggerMeasurement, hr]

/-- Concrete state for the C6 witness: idle after a completed cycle that
left a stale startTime behind. -/
def stC6 : SensorState :=
  { isReading := false, startTime := some 777, runningTimers := 0,
    timerRef := false, safetyPending := false, triggerLevel := false,
    closed := false }

/-- Witness for C6 at a concrete post cycle state holding a stale
startTime. -/
theorem claim_C6_witness :
    triggerMeasurement 18 stC6 true true =
      pulsePhase 18 (armCycle stC6) true true ∧
    (armCycle stC6).isReading = true ∧ (armCycle stC6).startTime = none :=
  claim_C6_fresh_cycle 18 stC6 true true rfl

/-- Clearing the timer when no handle is held changes nothing. -/
theorem clearTimer_of_not_ref (st : SensorState)
    (h : st.timerRef = false) : clearTimer st = st := by
  simp [clearTimer, h]

/-- C7: from any well formed timer state (at most one interval running,
matching the held handle), processing stop and then start leaves exactly
one running interval timer, so n scheduling periods produce exactly n
trigger attempts, not 2n; and a start received while a timer is running
clears the existing timer first, likewise ending with exactly one. -/
theorem claim_C7_single_timer (trigPin : ℤ) (st : SensorState)
    (h1 l1 h2 l2 : Bool)
    (hwf : st.runningTimers = if st.timerRef = true then 1 else 0) :
    ((handleInput trigPin (handleInput trigPin st Payload.stopCmd h1 l1).1
        Payload.startCmd h2 l2).1.runningTimers = 1) ∧
    (∀ n : Nat,
      (simPeriods trigPin n
        (handleInput trigPin (handleInput trigPin st Payload.stopCmd h1
          l1).1 Payload.startCmd h2 l2).1).2 = n) ∧
    ((handleInput trigPin st Payload.startCmd h2 l2).1.runningTimers
      = 1) := by
  have hclr := clearTimer_wf st hwf
  have hid : clearTimer (clearTimer st) = clearTimer st :=
    clearTimer_of_not_ref _ hclr.2
  have hstart : ∀ (u : SensorState) (a b : Bool),
      (handleInput trigPin u Payload.startCmd a b).1.runningTimers =
        (clearTimer u).runningTimers + 1 := by
    intro u a b
    show (startMeasurements trigPin (clearTimer u) a b).1.runningTimers = _
    simp [startMeasurements,
      (triggerMeasurement_timers trigPin (clearTimer u) a b).1]
  have hstop : (handleInput trigPin st Payload.stopCmd h1 l1).1 =
      clearTimer st := rfl
  have hone : (handleInput trigPin (handleInput trigPin st Payload.stopCmd
      h1 l1).1 Payload.startCmd h2 l2).1.runningTimers = 1 := by
    rw [hstop, hstart, hid, hclr.1]
  refine ⟨hone, ?_, ?_⟩
  · intro n
    rw [(simPeriods_count trigPin n _).1, hone, Nat.mul_one]
  · rw [hstart, hclr.1]

/-- Concrete state for the C7 witness: one interval timer running. -/
def stC7 : SensorState :=
  { isReading := false, startTime := none, runningTimers := 1,
    timerRef := true, safetyPending := false, triggerLevel := false,
    closed := false }

/-- Witness for C7: stop then start from a running timer state leaves
one timer, and three periods produce three trigger attempts. -/
theorem claim_C7_witness :
    ((handleInput 18 (handleInput 18 stC7 Payload.stopCmd true true).1
        Payload.startCmd true true).1.runningTimers = 1) ∧
    (simPeriods 18 3
      (handleInput 18 (handleInput 18 stC7 Payload.stopCmd true true).1
        Payload.startCmd true true).1).2 = 3 := by
  have h := claim_C7_single_timer 18 stC7 true true true true rfl
  exact ⟨h.1, h.2.1 3⟩

/-- Concrete state for C8: close arrives while a measurement is in
flight, with the 100 ms safety timeout still pending. -/
def stC8 : SensorState :=
  { isReading := true, startTime := some 5000, runningTimers := 1,
    timerRef := true, safetyPending := true, triggerLevel := false,
    closed := false }

/-- C8: evidence that src/hcsr04.js violates the claim. Its close
handler clears the interval timer and writes the trigger line low, but
never clears isReading and cannot cancel the pending one shot safety
setTimeout; when that timer fires after close it finds isReading still
true and emits a timeout status, an event after shutdown completed. -/
theorem claim_C8_close_bug :
    ((closeHandler 18 stC8 true).1.isReading = true) ∧
    ((closeHandler 18 stC8 true).1.triggerLevel = false) ∧
    ((closeHandler 18 stC8 true).1.closed = true) ∧
    ((safetyFire (closeHandler 18 stC8 true).1).2 =
      [Output.statusOut "yellow" "ring" StatusText.timedOut]) :=
  ⟨rfl, rfl, rfl, rfl⟩

/-- The sysfs variant (src/unnamed/part_000) clears isReading inside
its close handler, so a safety timeout firing after close emits no
event there: the bug is specific to src/hcsr04.js. -/
theorem closeHandlerFs_no_late_status :
    (safetyFire (closeHandlerFs 18 stC8 true).1).2 = [] := rfl

/-- Concrete idle state for C9. -/
def stC9 : SensorState :=
  { isReading := false, startTime := some 777, runningTimers := 0,
    timerRef := false, safetyPending := false, triggerLevel := false,
    closed := false }

/-- C9 counterexample: at a concrete idle state, a failed HIGH write
aborts the cycle and reports through node.error, but produces no
node.status update at all, so the claim that the IoError is propagated
to the status channel is false as stated. -/
theorem claim_C9_cex :
    ((triggerMeasurement 18 stC9 false true).2.countP isStatusOut = 0) ∧
    ((triggerMeasurement 18 stC9 false true).2.countP isErrorOut = 1) :=
  ⟨rfl, rfl⟩

/-- C9 amended: a failed gpio write during the trigger pulse phase
aborts the cycle: isReading returns to false, exactly one error is
reported on the node error channel, no Reading is emitted, and the
status display is not updated for that failure. -/
theorem claim_C9_write_failure (trigPin : ℤ) (st : SensorState)
    (writeHighOk writeLowOk : Bool) (hr : st.isReading = false)
    (hfail : writeHighOk = false ∨ writeLowOk = false) :
    ((triggerMeasurement trigPin st writeHighOk writeLowOk).1.isReading
      = false) ∧
    ((triggerMeasurement trigPin st writeHighOk writeLowOk).2.countP
      isReadingOut = 0) ∧
    ((triggerMeasurement trigPin st writeHighOk writeLowOk).2.countP
      isErrorOut = 1) ∧
    ((triggerMeasurement trigPin st writeHighOk writeLowOk).2.countP
      isStatusOut = 0) := by
  rcases hfail with h | h <;> subst h
  · cases writeLowOk <;>
      simp [triggerMeasurement, pulsePhase, armCycle, hr, isReadingOut,
        isErrorOut, isStatusOut, List.countP_cons, List.countP_nil]
  · cases writeHighOk <;>
      simp [triggerMeasurement, pulsePhase, armCycle, hr, isReadingOut,
        isErrorOut, isStatusOut, List.countP_cons, List.countP_nil]

/-- Witness for the amended C9 at a concrete idle state with a failing
HIGH write. -/
theorem claim_C9_witness :
    ((triggerMeasurement 18 stC9 false true).1.isReading = false) ∧
    ((triggerMeasurement 18 stC9 false true).2.countP isReadingOut = 0) ∧
    ((triggerMeasurement 18 stC9 false true).2.countP isErrorOut = 1) ∧
    ((triggerMeasurement 18 stC9 false true).2.countP isStatusOut = 0) :=
  claim_C9_write_failure 18 stC9 false true rfl (Or.inl rfl)

/-- parseIntOr never returns zero when the default is nonzero. -/
theorem parseIntOr_ne_zero (v : Option ℤ) (d : ℤ) (hd : d ≠ 0) :
    parseIntOr v d ≠ 0 := by
  cases v with
  | none => exact hd
  | some n =>
      by_cases hn : n = 0
      · simp [parseIntOr, hn, hd]
      · simp [parseIntOr, hn]

/-- C10: a trigger, echo, or interval field that is missing or does not
parse to a number (parseInt gives NaN, modelled as none), and likewise a
supplied zero, is replaced by the defaults 18, 24, and 1000, and the
resolved pin numbers and interval are never zero. -/
theorem claim_C10_defaults (c : RawConfig) :
    ((c.trigger = none ∨ c.trigger = some 0) →
      (parseConfig c).triggerPin = 18) ∧
    ((c.echo = none ∨ c.echo = some 0) → (parseConfig c).echoPin = 24) ∧
    ((c.interval = none ∨ c.interval = some 0) →
      (parseConfig c).intervalMs = 1000) ∧
    (parseConfig c).triggerPin ≠ 0 ∧ (parseConfig c).echoPin ≠ 0 ∧
    (parseConfig c).intervalMs ≠ 0 := by
  refine ⟨?_, ?_, ?_, ?_, ?_, ?_⟩
  · rintro (h | h) <;> simp [parseConfig, parseIntOr, h]
  · rintro (h | h) <;> simp [parseConfig, parseIntOr, h]
  · rintro (h | h) <;> simp [parseConfig, parseIntOr, h]
  · exact parseIntOr_ne_zero _ _ (by norm_num)
  · exact parseIntOr_ne_zero _ _ (by norm_num)
  · exact parseIntOr_ne_zero _ _ (by norm_num)

/-- Witness for C10 at a concrete configuration: trigger missing, echo
supplied as zero, interval supplied as seven. -/
theorem claim_C10_witness :
    ((parseConfig ⟨none, some 0, some 7⟩).triggerPin = 18) ∧
    ((parseConfig ⟨none, some 0, some 7⟩).echoPin = 24) ∧
    ((parseConfig ⟨none, some 0, some 7⟩).intervalMs ≠ 0) :=
  ⟨(claim_C10_defaults ⟨none, some 0, some 7⟩).1 (Or.inl rfl),
   (claim_C10_defaults ⟨none, some 0, some 7⟩).2.1 (Or.inr rfl),
   (claim_C10_defaults ⟨none, some 0, some 7⟩).2.2.2.2.2⟩

end HCSR04
